import Mathlib

/-!
Verification of the facilitator's batch ingestion core
(`facilitator/src/ingestion.rs`).

The development shallowly embeds `Batch` (the batch locator) and
`BatchIngestor::generate_validation_share`.  External collaborators
(the transport, the Avro record codec from the idl module, the ring
signature primitives and the libprio secret-share engine) are code
outside the given sources; they are abstracted as an explicit
environment of pure functions, following the interface contracts of
spec section 6.  The orchestration itself — the order of the steps,
every check, every error constructed, the field copies — is translated
line by line from `generate_validation_share`.

Runs are modelled as an event trace plus a result, so that ordering
claims ("verify before decode") and output claims ("no signature record
written after a per-packet failure") become statements about the trace.
-/

namespace Prio

/-- Byte strings exchanged with the collaborators. -/
abbrev Bytes := List Nat

/-- Decidable equality of collaborator outcomes. -/
instance {ε α : Type} [DecidableEq ε] [DecidableEq α] : DecidableEq (Except ε α) :=
  fun a b =>
    match a, b with
    | .ok x, .ok y =>
      if h : x = y then .isTrue (by rw [h]) else .isFalse (by simp [h])
    | .error x, .error y =>
      if h : x = y then .isTrue (by rw [h]) else .isFalse (by simp [h])
    | .ok _, .error _ => .isFalse (by simp)
    | .error _, .ok _ => .isFalse (by simp)

/-- Error taxonomy of the facilitator crate, as used in ingestion.rs.
Wrapped source errors are abstracted away; only the message strings
built in ingestion.rs are kept. -/
inductive Error where
  | IoError (msg : String)
  | AvroError (msg : String)
  | EofError
  | CryptographyError (msg : String)
  | MalformedHeaderError (msg : String)
  | MalformedDataPacketError (msg : String)
  | LibPrioError (msg : String)
  deriving DecidableEq

/-- Modelled from the spec: the record types live in the idl module,
which is not among the given sources.  The field list follows spec
section 3 and the field accesses in ingestion.rs; `bins` is the i32
bin count, the UUID is carried in its hyphenated string form. -/
structure IngestionHeader where
  batch_uuid : String
  name : String
  bins : Int
  epsilon : Int
  prime : Int
  number_of_servers : Int
  hamming_weight : Int
  deriving DecidableEq

/-- Modelled from the spec: two detached signatures, one over the
serialized header bytes, one over the whole packet file. -/
structure IngestionSignature where
  batch_header_signature : Bytes
  signature_of_packets : Bytes
  deriving DecidableEq

/-- Modelled from the spec: one data-share packet — a UUID, the i64
`r_pit` field selector and the payload opaque to this core. -/
structure IngestionDataSharePacket where
  uuid : String
  r_pit : Int
  encrypted_payload : Bytes
  deriving DecidableEq

/-- Validation header written on success; same parameter fields as the
ingestion header (ingestion.rs lines 265-274 copy them verbatim). -/
structure ValidationHeader where
  batch_uuid : String
  name : String
  bins : Int
  epsilon : Int
  prime : Int
  number_of_servers : Int
  hamming_weight : Int
  deriving DecidableEq

/-- Verification message produced by the secret-share engine.  The
`u32::from` conversions in ingestion.rs force the three components to
be unsigned 32-bit values, so they are modelled as `Fin (2 ^ 32)`. -/
structure VerificationMessage where
  f_r : Fin 4294967296
  g_r : Fin 4294967296
  h_r : Fin 4294967296
  deriving DecidableEq

/-- Validation packet as serialized: the UUID of the input packet and
the three engine outputs widened to signed 64-bit integers. -/
structure ValidationPacket where
  uuid : String
  f_r : Int
  g_r : Int
  h_r : Int
  deriving DecidableEq

/-- Rust's `u32::try_from` on an i64: succeeds exactly on values in
the unsigned 32-bit range, never truncating or wrapping. -/
def u32_try_from (i : Int) : Option Nat :=
  if 0 ≤ i ∧ i < 4294967296 then some i.toNat else none

/-! ### The batch locator

`Batch::new` builds the three storage keys with `PathBuf::join` and
`Path::with_extension`.  Paths are modelled as their component lists;
`with_extension` follows the documented Rust semantics: the last
component is replaced by its file stem followed by a dot and the new
extension, where the stem is the part before the last dot, the whole
name when there is no dot, and the whole name when the only dot is the
leading character. -/

/-- Index of the last dot in a component, accumulator form. -/
def lastDotIdxAux : List Char → Nat → Option Nat → Option Nat
  | [], _, acc => acc
  | c :: rest, i, acc => lastDotIdxAux rest (i + 1) (if c = '.' then some i else acc)

/-- Index of the last dot in a component. -/
def lastDotIdx (s : List Char) : Option Nat := lastDotIdxAux s 0 none

/-- Rust `Path::file_stem` on a single path component. -/
def rust_file_stem (s : List Char) : List Char :=
  match lastDotIdx s with
  | none => s
  | some 0 => s
  | some (i + 1) => s.take (i + 1)

/-- Replace the extension of one path component, Rust
`Path::with_extension` semantics. -/
def set_ext_component (c : String) (ext : String) : String :=
  if ext.data = [] then String.mk (rust_file_stem c.data)
  else String.mk (rust_file_stem c.data ++ '.' :: ext.data)

/-- Storage keys are path component lists. -/
abbrev StorageKey := List String

/-- Rust `Path::with_extension` lifted to a component-list path: it
rewrites the last component. -/
def with_extension : StorageKey → String → StorageKey
  | [], _ => []
  | [c], ext => [set_ext_component c ext]
  | c :: rest, ext => c :: with_extension rest ext

/-- Batch locator: the three storage keys of one batch. -/
structure Batch where
  header_path : StorageKey
  packet_file_path : StorageKey
  signature_path : StorageKey
  deriving DecidableEq

/-- Translation of `Batch::new`: path stem `name/date/uuid`, then the
three keys by extension rewriting. -/
def Batch.new (aggregation_name : String) (uuid : String) (date : String)
    (filename : String) : Batch :=
  let batch_path : StorageKey := [aggregation_name, date, uuid]
  { header_path := with_extension batch_path filename
    packet_file_path := with_extension batch_path (filename ++ ".avro")
    signature_path := with_extension batch_path (filename ++ ".sig") }

/-- Translation of `Batch::new_ingestion`. -/
def Batch.new_ingestion (aggregation_name uuid date : String) : Batch :=
  Batch.new aggregation_name uuid date "batch"

/-- Translation of `Batch::new_validation`. -/
def Batch.new_validation (aggregation_name uuid date : String) (is_first : Bool) : Batch :=
  Batch.new aggregation_name uuid date ("validity_" ++ (if is_first then "0" else "1"))

/-! ### Events and the collaborator environment -/

/-- Observable events of one `generate_validation_share` run, in
execution order.  Fetches and sink openings record the interaction
with the transports, verifications record the boolean outcome, and the
per-packet events carry the loop index. -/
inductive Event where
  | fetchSignature
  | fetchHeader
  | verifyHeaderSignature (ok : Bool)
  | parseHeaderAttempt (r : Except Error IngestionHeader)
  | constructServer (bins : Nat) (isFirst : Bool)
  | fetchPacketFile
  | verifyPacketFileSignature (ok : Bool)
  | createPacketReader
  | openPacketFileSink (key : StorageKey)
  | decodeAttempt (i : Nat) (r : Except Error IngestionDataSharePacket)
  | engineResult (i : Nat) (rPit : Nat) (m : Option VerificationMessage)
  | writePacket (i : Nat) (p : ValidationPacket)
  | flushPackets
  | signPacketFile
  | openHeaderSink (key : StorageKey)
  | writeHeader (h : ValidationHeader)
  | signHeader
  | openSignatureSink (key : StorageKey)
  | writeSignatureRecord (s : IngestionSignature)
  deriving DecidableEq

/-- Modelled from the spec: the collaborators of section 6 — the two
transports, the record codec, the ring signature primitives and the
libprio server — are code outside the given sources, so one run's
interaction with them is abstracted as this record of pure functions.
`ingestionGet` folds `Transport::get` with reading the stream to its
end; `mkPacketReader` is `Reader::with_schema`, yielding the sequence
of per-packet decode outcomes; `genVerification` is
`Server::generate_verification_message` of the server built from the
bin count and the role flag; `sign` is the processor signing key (a
`none` is a signing failure); `serializePackets` and `serializeHeader`
stand for the bytes a sidecar writer accumulates. -/
structure Env where
  ingestionGet : StorageKey → Except Error Bytes
  parseSignature : Bytes → Except Error IngestionSignature
  verify : Bytes → Bytes → Bool
  parseHeader : Bytes → Except Error IngestionHeader
  mkPacketReader : Bytes → Option (List (Except Error IngestionDataSharePacket))
  validationPut : StorageKey → Except Error Unit
  genVerification : Nat → Bool → Nat → Bytes → Option VerificationMessage
  writeValidationPacket : ValidationPacket → Except Error Unit
  flushPacketWriter : Bool
  serializePackets : List ValidationPacket → Bytes
  sign : Bytes → Option Bytes
  serializeHeader : ValidationHeader → Bytes
  writeValidationHeader : ValidationHeader → Except Error Unit
  writeSignatureRecord : IngestionSignature → Except Error Unit

/-- Construction of the validation header (ingestion.rs lines 265-273):
every protocol parameter is copied verbatim from the ingestion header. -/
def copyHeader (h : IngestionHeader) : ValidationHeader :=
  { batch_uuid := h.batch_uuid
    name := h.name
    bins := h.bins
    epsilon := h.epsilon
    prime := h.prime
    number_of_servers := h.number_of_servers
    hamming_weight := h.hamming_weight }

/-- Widening construction of one validation packet (ingestion.rs lines
234-239): same UUID, the three engine outputs via `u32::from ... as i64`. -/
def mkValidationPacket (p : IngestionDataSharePacket) (m : VerificationMessage) :
    ValidationPacket :=
  { uuid := p.uuid
    f_r := (m.f_r.val : Int)
    g_r := (m.g_r.val : Int)
    h_r := (m.h_r.val : Int) }

/-- Per-packet loop of `generate_validation_share` (ingestion.rs lines
205-241): decode, range-check `r_pit`, call the engine, widen and write
the validation packet; an end-of-file decode outcome (or an exhausted
reader) ends the loop normally, every other failure aborts with the
error of the failing step.  Returns the loop's events and, on success,
the packets accumulated by the sidecar writer. -/
def runLoop (env : Env) (bins : Nat) (is_first : Bool) :
    Nat → List ValidationPacket → List (Except Error IngestionDataSharePacket) →
    List Event × Except Error (List ValidationPacket)
  | _, acc, [] => ([], .ok acc)
  | i, acc, r :: rest =>
    let t0 := [Event.decodeAttempt i r]
    match r with
    | .error Error.EofError => (t0, .ok acc)
    | .error e => (t0, .error e)
    | .ok packet =>
      match u32_try_from packet.r_pit with
      | none =>
          (t0, .error (.MalformedDataPacketError
            ("illegal r_pit value " ++ toString packet.r_pit ++
              " (out of range integral type conversion attempted)")))
      | some r_pit =>
        let m := env.genVerification bins is_first r_pit packet.encrypted_payload
        let t1 := t0 ++ [Event.engineResult i r_pit m]
        match m with
        | none => (t1, .error (.LibPrioError "failed to construct validation message"))
        | some vm =>
          let vp := mkValidationPacket packet vm
          let t2 := t1 ++ [Event.writePacket i vp]
          match env.writeValidationPacket vp with
          | .error e => (t2, .error e)
          | .ok _ =>
            let rest_out := runLoop env bins is_first (i + 1) (acc ++ [vp]) rest
            (t2 ++ rest_out.1, rest_out.2)

/-- Translation of `BatchIngestor::generate_validation_share`
(ingestion.rs lines 106-300), step by step in source order: fetch and
parse the signature record, fetch the header bytes, verify the header
signature, parse the header, reject a non-positive bin count,
construct the server, fetch the whole packet file, verify its
signature, build the packet reader, open the output packet sink, run
the per-packet loop, flush, sign the accumulated packets, write and
sign the validation header, and write the output signature record.
Returns the event trace together with the result. -/
def generate_validation_share (aggregation_name uuid date : String) (is_first : Bool)
    (env : Env) : List Event × Except Error Unit :=
  let ingestion_batch := Batch.new_ingestion aggregation_name uuid date
  let validation_batch := Batch.new_validation aggregation_name uuid date is_first
  let t0 := [Event.fetchSignature]
  match env.ingestionGet ingestion_batch.signature_path with
  | .error e => (t0, .error e)
  | .ok sigBytes =>
  match env.parseSignature sigBytes with
  | .error e => (t0, .error e)
  | .ok signature =>
  let t1 := t0 ++ [Event.fetchHeader]
  match env.ingestionGet ingestion_batch.header_path with
  | .error e => (t1, .error e)
  | .ok headerBytes =>
  let okHeaderSig := env.verify headerBytes signature.batch_header_signature
  let t2 := t1 ++ [Event.verifyHeaderSignature okHeaderSig]
  match okHeaderSig with
  | false => (t2, .error (.CryptographyError "invalid signature on ingestion header"))
  | true =>
  let hres := env.parseHeader headerBytes
  let t3 := t2 ++ [Event.parseHeaderAttempt hres]
  match hres with
  | .error e => (t3, .error e)
  | .ok ingestion_header =>
  if ingestion_header.bins ≤ 0 then
    (t3, .error (.MalformedHeaderError
      ("invalid bins/dimension value " ++ toString ingestion_header.bins)))
  else
  let bins := ingestion_header.bins.toNat
  let t4 := t3 ++ [Event.constructServer bins is_first]
  let t5 := t4 ++ [Event.fetchPacketFile]
  match env.ingestionGet ingestion_batch.packet_file_path with
  | .error e => (t5, .error e)
  | .ok entire_packet_file =>
  let okPacketSig := env.verify entire_packet_file signature.signature_of_packets
  let t6 := t5 ++ [Event.verifyPacketFileSignature okPacketSig]
  match okPacketSig with
  | false => (t6, .error (.CryptographyError "invalid signature on packet file"))
  | true =>
  let t7 := t6 ++ [Event.createPacketReader]
  match env.mkPacketReader entire_packet_file with
  | none => (t7, .error (.AvroError "failed to create Avro reader for data share packets"))
  | some packetStream =>
  let t8 := t7 ++ [Event.openPacketFileSink validation_batch.packet_file_path]
  match env.validationPut validation_batch.packet_file_path with
  | .error e => (t8, .error e)
  | .ok _ =>
  let loop_out := runLoop env bins is_first 0 [] packetStream
  let t9 := t8 ++ loop_out.1
  match loop_out.2 with
  | .error e => (t9, .error e)
  | .ok written =>
  let t10 := t9 ++ [Event.flushPackets]
  match env.flushPacketWriter with
  | false => (t10, .error (.AvroError "failed to flush validation packet writer"))
  | true =>
  let t11 := t10 ++ [Event.signPacketFile]
  match env.sign (env.serializePackets written) with
  | none => (t11, .error (.CryptographyError "failed to sign validation packet file"))
  | some packet_file_signature =>
  let t12 := t11 ++ [Event.openHeaderSink validation_batch.header_path]
  match env.validationPut validation_batch.header_path with
  | .error e => (t12, .error e)
  | .ok _ =>
  let vh : ValidationHeader := copyHeader ingestion_header
  let t13 := t12 ++ [Event.writeHeader vh]
  match env.writeValidationHeader vh with
  | .error e => (t13, .error e)
  | .ok _ =>
  let t14 := t13 ++ [Event.signHeader]
  match env.sign (env.serializeHeader vh) with
  | none => (t14, .error (.CryptographyError "failed to sign validation header file"))
  | some header_signature =>
  let t15 := t14 ++ [Event.openSignatureSink validation_batch.signature_path]
  match env.validationPut validation_batch.signature_path with
  | .error e => (t15, .error e)
  | .ok _ =>
  let outSig : IngestionSignature :=
    { batch_header_signature := header_signature
      signature_of_packets := packet_file_signature }
  let t16 := t15 ++ [Event.writeSignatureRecord outSig]
  match env.writeSignatureRecord outSig with
  | .error e => (t16, .error e)
  | .ok _ => (t16, .ok ())

/-! ### Structural lemmas about the per-packet loop -/

/-- Classification of the per-packet events: the loop index of a
decode, engine or packet-write event, and `none` for every other
event. -/
def Event.loopIdx : Event → Option Nat
  | .decodeAttempt i _ => some i
  | .engineResult i _ _ => some i
  | .writePacket i _ => some i
  | _ => none

/-! ### Exhaustive case analysis of one run

The trace prefixes below mirror, step by step, the trace built by
`generate_validation_share`; `RunShape` then enumerates every way one
call can end — which step failed, with the exact trace and result of
that case — and `run_shape` proves the enumeration exhaustive. -/

def trSig : List Event := [Event.fetchSignature]

def trHdr : List Event := trSig ++ [Event.fetchHeader]

def trVerH (ok : Bool) : List Event := trHdr ++ [Event.verifyHeaderSignature ok]

def trParse (r : Except Error IngestionHeader) : List Event :=
  trVerH true ++ [Event.parseHeaderAttempt r]

def trSrv (hdr : IngestionHeader) (fi : Bool) : List Event :=
  trParse (.ok hdr) ++ [Event.constructServer hdr.bins.toNat fi]

def trFetchP (hdr : IngestionHeader) (fi : Bool) : List Event :=
  trSrv hdr fi ++ [Event.fetchPacketFile]

def trVerP (hdr : IngestionHeader) (fi : Bool) (ok : Bool) : List Event :=
  trFetchP hdr fi ++ [Event.verifyPacketFileSignature ok]

def trRdr (hdr : IngestionHeader) (fi : Bool) : List Event :=
  trVerP hdr fi true ++ [Event.createPacketReader]

def trSink (a u d : String) (fi : Bool) (hdr : IngestionHeader) : List Event :=
  trRdr hdr fi ++ [Event.openPacketFileSink (Batch.new_validation a u d fi).packet_file_path]

def trLoop (a u d : String) (fi : Bool) (hdr : IngestionHeader) (env : Env)
    (stream : List (Except Error IngestionDataSharePacket)) : List Event :=
  trSink a u d fi hdr ++ (runLoop env hdr.bins.toNat fi 0 [] stream).1

def trFlush (a u d : String) (fi : Bool) (hdr : IngestionHeader) (env : Env)
    (stream : List (Except Error IngestionDataSharePacket)) : List Event :=
  trLoop a u d fi hdr env stream ++ [Event.flushPackets]

def trSignP (a u d : String) (fi : Bool) (hdr : IngestionHeader) (env : Env)
    (stream : List (Except Error IngestionDataSharePacket)) : List Event :=
  trFlush a u d fi hdr env stream ++ [Event.signPacketFile]

def trOpenH (a u d : String) (fi : Bool) (hdr : IngestionHeader) (env : Env)
    (stream : List (Except Error IngestionDataSharePacket)) : List Event :=
  trSignP a u d fi hdr env stream ++
    [Event.openHeaderSink (Batch.new_validation a u d fi).header_path]

def trWriteH (a u d : String) (fi : Bool) (hdr : IngestionHeader) (env : Env)
    (stream : List (Except Error IngestionDataSharePacket)) : List Event :=
  trOpenH a u d fi hdr env stream ++ [Event.writeHeader (copyHeader hdr)]

def trSignH (a u d : String) (fi : Bool) (hdr : IngestionHeader) (env : Env)
    (stream : List (Except Error IngestionDataSharePacket)) : List Event :=
  trWriteH a u d fi hdr env stream ++ [Event.signHeader]

def trOpenS (a u d : String) (fi : Bool) (hdr : IngestionHeader) (env : Env)
    (stream : List (Except Error IngestionDataSharePacket)) : List Event :=
  trSignH a u d fi hdr env stream ++
    [Event.openSignatureSink (Batch.new_validation a u d fi).signature_path]

def trWriteS (a u d : String) (fi : Bool) (hdr : IngestionHeader) (env : Env)
    (stream : List (Except Error IngestionDataSharePacket)) (hs ps : Bytes) : List Event :=
  trOpenS a u d fi hdr env stream ++ [Event.writeSignatureRecord ⟨hs, ps⟩]

/-- Shape of one run of `generate_validation_share`: one constructor
per way the call can end, carrying the exact trace and result. -/
inductive RunShape (a u d : String) (fi : Bool) (env : Env) :
    List Event × Except Error Unit → Prop where
  | sigFail (e : Error) : RunShape a u d fi env (trSig, .error e)
  | headerFetchFail (e : Error) : RunShape a u d fi env (trHdr, .error e)
  | headerSigFail :
      RunShape a u d fi env (trVerH false,
        .error (.CryptographyError "invalid signature on ingestion header"))
  | parseFail (e : Error) : RunShape a u d fi env (trParse (.error e), .error e)
  | badBins (hdr : IngestionHeader) (hb : hdr.bins ≤ 0) :
      RunShape a u d fi env (trParse (.ok hdr),
        .error (.MalformedHeaderError ("invalid bins/dimension value " ++ toString hdr.bins)))
  | packetFetchFail (hdr : IngestionHeader) (hb : 0 < hdr.bins) (e : Error) :
      RunShape a u d fi env (trFetchP hdr fi, .error e)
  | packetSigFail (hdr : IngestionHeader) (hb : 0 < hdr.bins) :
      RunShape a u d fi env (trVerP hdr fi false,
        .error (.CryptographyError "invalid signature on packet file"))
  | readerFail (hdr : IngestionHeader) (hb : 0 < hdr.bins) :
      RunShape a u d fi env (trRdr hdr fi,
        .error (.AvroError "failed to create Avro reader for data share packets"))
  | putPacketFileFail (hdr : IngestionHeader) (hb : 0 < hdr.bins) (e : Error) :
      RunShape a u d fi env (trSink a u d fi hdr, .error e)
  | loopFail (hdr : IngestionHeader) (hb : 0 < hdr.bins)
      (stream : List (Except Error IngestionDataSharePacket)) (e : Error)
      (hl : (runLoop env hdr.bins.toNat fi 0 [] stream).2 = .error e) :
      RunShape a u d fi env (trLoop a u d fi hdr env stream, .error e)
  | flushFail (hdr : IngestionHeader) (hb : 0 < hdr.bins)
      (stream : List (Except Error IngestionDataSharePacket))
      (written : List ValidationPacket)
      (hl : (runLoop env hdr.bins.toNat fi 0 [] stream).2 = .ok written) :
      RunShape a u d fi env (trFlush a u d fi hdr env stream,
        .error (.AvroError "failed to flush validation packet writer"))
  | signPacketsFail (hdr : IngestionHeader) (hb : 0 < hdr.bins)
      (stream : List (Except Error IngestionDataSharePacket))
      (written : List ValidationPacket)
      (hl : (runLoop env hdr.bins.toNat fi 0 [] stream).2 = .ok written) :
      RunShape a u d fi env (trSignP a u d fi hdr env stream,
        .error (.CryptographyError "failed to sign validation packet file"))
  | putHeaderFail (hdr : IngestionHeader) (hb : 0 < hdr.bins)
      (stream : List (Except Error IngestionDataSharePacket))
      (written : List ValidationPacket)
      (hl : (runLoop env hdr.bins.toNat fi 0 [] stream).2 = .ok written) (e : Error) :
      RunShape a u d fi env (trOpenH a u d fi hdr env stream, .error e)
  | writeHeaderFail (hdr : IngestionHeader) (hb : 0 < hdr.bins)
      (stream : List (Except Error IngestionDataSharePacket))
      (written : List ValidationPacket)
      (hl : (runLoop env hdr.bins.toNat fi 0 [] stream).2 = .ok written) (e : Error) :
      RunShape a u d fi env (trWriteH a u d fi hdr env stream, .error e)
  | signHeaderFail (hdr : IngestionHeader) (hb : 0 < hdr.bins)
      (stream : List (Except Error IngestionDataSharePacket))
      (written : List ValidationPacket)
      (hl : (runLoop env hdr.bins.toNat fi 0 [] stream).2 = .ok written) :
      RunShape a u d fi env (trSignH a u d fi hdr env stream,
        .error (.CryptographyError "failed to sign validation header file"))
  | putSignatureFail (hdr : IngestionHeader) (hb : 0 < hdr.bins)
      (stream : List (Except Error IngestionDataSharePacket))
      (written : List ValidationPacket)
      (hl : (runLoop env hdr.bins.toNat fi 0 [] stream).2 = .ok written) (e : Error) :
      RunShape a u d fi env (trOpenS a u d fi hdr env stream, .error e)
  | writeSigRecordFail (hdr : IngestionHeader) (hb : 0 < hdr.bins)
      (stream : List (Except Error IngestionDataSharePacket))
      (written : List ValidationPacket)
      (hl : (runLoop env hdr.bins.toNat fi 0 [] stream).2 = .ok written)
      (hs ps : Bytes) (e : Error)
      (hw : env.writeSignatureRecord ⟨hs, ps⟩ = .error e) :
      RunShape a u d fi env (trWriteS a u d fi hdr env stream hs ps, .error e)
  | done (hdr : IngestionHeader) (hb : 0 < hdr.bins)
      (stream : List (Except Error IngestionDataSharePacket))
      (written : List ValidationPacket)
      (hl : (runLoop env hdr.bins.toNat fi 0 [] stream).2 = .ok written)
      (hs ps : Bytes)
      (hw : env.writeSignatureRecord ⟨hs, ps⟩ = .ok ()) :
      RunShape a u d fi env (trWriteS a u d fi hdr env stream hs ps, .ok ())

attribute [simp] trSig trHdr trVerH trParse trSrv trFetchP trVerP trRdr trSink trLoop
  trFlush trSignP trOpenH trWriteH trSignH trOpenS trWriteS Event.loopIdx

/-- Failure of any per-packet step, as visible in a trace: a non-EOF
decode error, a decoded packet with out-of-range r_pit, or an engine
refusal. -/
def loopFailure (t : List Event) : Prop :=
  (∃ i e2, e2 ≠ Error.EofError ∧ Event.decodeAttempt i (.error e2) ∈ t) ∨
  (∃ i p, Event.decodeAttempt i (.ok p) ∈ t ∧ u32_try_from p.r_pit = none) ∨
  (∃ i rp, Event.engineResult i rp none ∈ t)

/-! ### Concrete environments

Small concrete collaborator environments used to instantiate the
theorems above on runs that actually happen. -/

/-- Sample ingestion header. -/
def goodHeader : IngestionHeader :=
  { batch_uuid := "00000000-0000-0000-0000-000000000000"
    name := "fake-aggregation-1"
    bins := 10
    epsilon := 1
    prime := 4293918721
    number_of_servers := 2
    hamming_weight := 5 }

/-- Sample data-share packet with an in-range r_pit. -/
def goodPacket : IngestionDataSharePacket :=
  { uuid := "packet-0", r_pit := 7, encrypted_payload := [1, 2, 3] }

/-- Sample data-share packet whose r_pit is below the unsigned 32-bit
range. -/
def badPacket : IngestionDataSharePacket :=
  { uuid := "packet-bad", r_pit := -1, encrypted_payload := [9] }

/-- Sample verification message. -/
def goodMessage : VerificationMessage :=
  { f_r := ⟨3, by decide⟩, g_r := ⟨4, by decide⟩, h_r := ⟨5, by decide⟩ }

/-- Environment in which every collaborator call succeeds: both
signatures verify, the stored header parses to `hdr` and the packet
reader yields `stream`. -/
def mkEnv (hdr : IngestionHeader)
    (stream : List (Except Error IngestionDataSharePacket)) : Env :=
  { ingestionGet := fun _ => .ok [0]
    parseSignature := fun _ =>
      .ok { batch_header_signature := [1], signature_of_packets := [2] }
    verify := fun _ _ => true
    parseHeader := fun _ => .ok hdr
    mkPacketReader := fun _ => some stream
    validationPut := fun _ => .ok ()
    genVerification := fun _ _ _ _ => some goodMessage
    writeValidationPacket := fun _ => .ok ()
    flushPacketWriter := true
    serializePackets := fun _ => [3]
    sign := fun _ => some [4]
    serializeHeader := fun _ => [5]
    writeValidationHeader := fun _ => .ok ()
    writeSignatureRecord := fun _ => .ok () }

/-- The all-good environment with one decodable packet. -/
def okEnv : Env := mkEnv goodHeader [.ok goodPacket]

/-- The all-good run. -/
def okRun : List Event × Except Error Unit :=
  generate_validation_share "fake-aggregation-1" "uuid-0" "2020-10-31" true okEnv

/-- Environment whose packet-file signature fails to verify: the
verifier only accepts the header signature bytes. -/
def envBadPacketSig : Env :=
  { mkEnv goodHeader [.ok goodPacket] with verify := fun _ s => s == [1] }

/-- Run against the bad packet-file signature. -/
def badSigRun : List Event × Except Error Unit :=
  generate_validation_share "fake-aggregation-1" "uuid-0" "2020-10-31" true envBadPacketSig

/-- Environment in which no signature verifies. -/
def envNoVerify : Env :=
  { mkEnv goodHeader [.ok goodPacket] with verify := fun _ _ => false }

/-- Run against the unverifiable batch. -/
def noVerifyRun : List Event × Except Error Unit :=
  generate_validation_share "fake-aggregation-1" "uuid-0" "2020-10-31" true envNoVerify

/-- Header with a zero bin count. -/
def badBinsHeader : IngestionHeader := { goodHeader with bins := 0 }

/-- Environment whose stored header has a zero bin count. -/
def envBadBins : Env := mkEnv badBinsHeader [.ok goodPacket]

/-- Run against the zero-bin header. -/
def badBinsRun : List Event × Except Error Unit :=
  generate_validation_share "fake-aggregation-1" "uuid-0" "2020-10-31" true envBadBins

/-- Environment whose first packet has an out-of-range r_pit, followed
by a well-formed packet. -/
def envBadRpit : Env := mkEnv goodHeader [.ok badPacket, .ok goodPacket]

/-- Run against the out-of-range packet. -/
def badRpitRun : List Event × Except Error Unit :=
  generate_validation_share "fake-aggregation-1" "uuid-0" "2020-10-31" true envBadRpit

/-- Every event the loop emits is a per-packet event, with an index at
least the loop's starting index. -/
theorem runLoop_idx (env : Env) (bins : Nat) (fi : Bool) :
    ∀ (s : List (Except Error IngestionDataSharePacket)) (i : Nat)
      (acc : List ValidationPacket),
      ∀ e ∈ (runLoop env bins fi i acc s).1, ∃ j, i ≤ j ∧ e.loopIdx = some j := by
  intro s
  induction s with
  | nil => intro i acc e he; simp [runLoop] at he
  | cons r rest ih =>
    intro i acc e he
    cases r with
    | error er =>
      cases er <;>
        (simp only [runLoop, List.mem_singleton] at he; subst he;
         exact ⟨i, Nat.le_refl i, rfl⟩)
    | ok packet =>
      cases h1 : u32_try_from packet.r_pit with
      | none =>
        simp only [runLoop, h1, List.mem_singleton] at he
        subst he; exact ⟨i, Nat.le_refl i, rfl⟩
      | some rp =>
        cases h2 : env.genVerification bins fi rp packet.encrypted_payload with
        | none =>
          simp only [runLoop, h1, h2, List.cons_append, List.nil_append,
            List.mem_cons, List.not_mem_nil, or_false] at he
          rcases he with he | he <;> (subst he; exact ⟨i, Nat.le_refl i, rfl⟩)
        | some vm =>
          cases h3 : env.writeValidationPacket (mkValidationPacket packet vm) with
          | error e2 =>
            simp only [runLoop, h1, h2, h3, List.cons_append, List.nil_append,
              List.mem_cons, List.not_mem_nil, or_false] at he
            rcases he with he | he | he <;> (subst he; exact ⟨i, Nat.le_refl i, rfl⟩)
          | ok u =>
            simp only [runLoop, h1, h2, h3, List.cons_append, List.nil_append,
              List.mem_cons, List.mem_append] at he
            rcases he with he | he | he | he
            · subst he; exact ⟨i, Nat.le_refl i, rfl⟩
            · subst he; exact ⟨i, Nat.le_refl i, rfl⟩
            · subst he; exact ⟨i, Nat.le_refl i, rfl⟩
            · obtain ⟨j, hij, hj⟩ :=
                ih (i + 1) (acc ++ [mkValidationPacket packet vm]) e he
              exact ⟨j, Nat.le_trans (Nat.le_succ i) hij, hj⟩

/-- Events that are not per-packet events never appear in the loop's
trace. -/
theorem runLoop_not_mem (env : Env) (bins : Nat) (fi : Bool)
    (s : List (Except Error IngestionDataSharePacket)) (i : Nat)
    (acc : List ValidationPacket) {e : Event} (he : e.loopIdx = none) :
    e ∉ (runLoop env bins fi i acc s).1 := by
  intro hmem
  obtain ⟨j, _, hj⟩ := runLoop_idx env bins fi s i acc e hmem
  rw [he] at hj
  exact Option.noConfusion hj

/-- Decoding a packet whose r_pit is outside the unsigned 32-bit range
aborts the loop with the malformed-data-packet error naming the value:
no later packet is decoded and the offending packet reaches neither the
engine nor the output writer. -/
theorem runLoop_bad_rpit (env : Env) (bins : Nat) (fi : Bool) :
    ∀ (s : List (Except Error IngestionDataSharePacket)) (i : Nat)
      (acc : List ValidationPacket) (j : Nat) (p : IngestionDataSharePacket),
      Event.decodeAttempt j (.ok p) ∈ (runLoop env bins fi i acc s).1 →
      u32_try_from p.r_pit = none →
      (runLoop env bins fi i acc s).2 = .error (.MalformedDataPacketError
          ("illegal r_pit value " ++ toString p.r_pit ++
            " (out of range integral type conversion attempted)")) ∧
      (∀ k r2, Event.decodeAttempt k r2 ∈ (runLoop env bins fi i acc s).1 → k ≤ j) ∧
      (∀ k rp m, Event.engineResult k rp m ∈ (runLoop env bins fi i acc s).1 → k < j) ∧
      (∀ k vp, Event.writePacket k vp ∈ (runLoop env bins fi i acc s).1 → k < j) := by
  intro s
  induction s with
  | nil => intro i acc j p hmem hb; simp [runLoop] at hmem
  | cons r rest ih =>
    intro i acc j p hmem hb
    cases r with
    | error er => cases er <;> simp [runLoop] at hmem
    | ok q =>
      cases h1 : u32_try_from q.r_pit with
      | none =>
        simp only [runLoop, h1, List.mem_singleton, Event.decodeAttempt.injEq,
          Except.ok.injEq] at hmem
        obtain ⟨hji, hpq⟩ := hmem
        subst hji; subst hpq
        refine ⟨by simp [runLoop, h1], ?_, ?_, ?_⟩
        · intro k r2 hk
          simp only [runLoop, h1, List.mem_singleton, Event.decodeAttempt.injEq] at hk
          exact Nat.le_of_eq hk.1
        · intro k rp m hk; simp [runLoop, h1] at hk
        · intro k vp hk; simp [runLoop, h1] at hk
      | some rp =>
        cases h2 : env.genVerification bins fi rp q.encrypted_payload with
        | none =>
          simp only [runLoop, h1, h2, List.cons_append, List.nil_append,
            List.mem_cons, List.not_mem_nil, or_false, Event.decodeAttempt.injEq,
            Except.ok.injEq, reduceCtorEq] at hmem
          obtain ⟨-, hpq⟩ := hmem
          subst hpq
          rw [h1] at hb
          exact Option.noConfusion hb
        | some vm =>
          cases h3 : env.writeValidationPacket (mkValidationPacket q vm) with
          | error e2 =>
            simp only [runLoop, h1, h2, h3, List.cons_append, List.nil_append,
              List.mem_cons, List.not_mem_nil, or_false, Event.decodeAttempt.injEq,
              Except.ok.injEq, reduceCtorEq, and_false, false_or, false_and,
              or_false] at hmem
            obtain ⟨-, hpq⟩ := hmem
            subst hpq
            rw [h1] at hb
            exact Option.noConfusion hb
          | ok u =>
            have hmem' : Event.decodeAttempt j (.ok p) ∈
                (runLoop env bins fi (i + 1) (acc ++ [mkValidationPacket q vm]) rest).1 := by
              simp only [runLoop, h1, h2, h3, List.cons_append, List.nil_append,
                List.mem_cons, List.mem_append, Event.decodeAttempt.injEq,
                Except.ok.injEq, reduceCtorEq, and_false, false_or, false_and,
                or_false] at hmem
              rcases hmem with ⟨-, hpq⟩ | hmem
              · subst hpq; rw [h1] at hb; exact Option.noConfusion hb
              · exact hmem
            have hij : i + 1 ≤ j := by
              obtain ⟨j2, hj2, hidx⟩ :=
                runLoop_idx env bins fi rest (i + 1) (acc ++ [mkValidationPacket q vm])
                  _ hmem'
              simp only [Event.loopIdx, Option.some.injEq] at hidx
              omega
            obtain ⟨hres, hd, heg, hw⟩ :=
              ih (i + 1) (acc ++ [mkValidationPacket q vm]) j p hmem' hb
            refine ⟨by simp [runLoop, h1, h2, h3, hres], ?_, ?_, ?_⟩
            · intro k r2 hk
              simp only [runLoop, h1, h2, h3, List.cons_append, List.nil_append,
                List.mem_cons, List.mem_append, Event.decodeAttempt.injEq,
                reduceCtorEq, false_and, false_or, or_false] at hk
              rcases hk with ⟨hki, -⟩ | hk
              · subst hki; exact Nat.le_trans (Nat.le_succ k) hij
              · exact hd k r2 hk
            · intro k rp2 m hk
              simp only [runLoop, h1, h2, h3, List.cons_append, List.nil_append,
                List.mem_cons, List.mem_append, Event.engineResult.injEq,
                reduceCtorEq, false_and, false_or, or_false] at hk
              rcases hk with ⟨hki, -⟩ | hk
              · subst hki; exact Nat.lt_of_lt_of_le (Nat.lt_succ_self k) hij
              · exact heg k rp2 m hk
            · intro k vp hk
              simp only [runLoop, h1, h2, h3, List.cons_append, List.nil_append,
                List.mem_cons, List.mem_append, Event.writePacket.injEq,
                reduceCtorEq, false_and, false_or, or_false] at hk
              rcases hk with ⟨hki, -⟩ | hk
              · subst hki; exact Nat.lt_of_lt_of_le (Nat.lt_succ_self k) hij
              · exact hw k vp hk

/-- Provenance of every packet the loop writes: it was built by
`mkValidationPacket` from the packet decoded at the same index and the
verification message the engine returned for its in-range r_pit. -/
theorem runLoop_writePacket (env : Env) (bins : Nat) (fi : Bool) :
    ∀ (s : List (Except Error IngestionDataSharePacket)) (i : Nat)
      (acc : List ValidationPacket) (j : Nat) (vp : ValidationPacket),
      Event.writePacket j vp ∈ (runLoop env bins fi i acc s).1 →
      ∃ p rp m, Event.decodeAttempt j (.ok p) ∈ (runLoop env bins fi i acc s).1 ∧
        u32_try_from p.r_pit = some rp ∧
        Event.engineResult j rp (some m) ∈ (runLoop env bins fi i acc s).1 ∧
        vp = mkValidationPacket p m := by
  intro s
  induction s with
  | nil => intro i acc j vp hmem; simp [runLoop] at hmem
  | cons r rest ih =>
    intro i acc j vp hmem
    cases r with
    | error er => cases er <;> simp [runLoop] at hmem
    | ok q =>
      cases h1 : u32_try_from q.r_pit with
      | none => simp [runLoop, h1] at hmem
      | some rp =>
        cases h2 : env.genVerification bins fi rp q.encrypted_payload with
        | none => simp [runLoop, h1, h2] at hmem
        | some vm =>
          cases h3 : env.writeValidationPacket (mkValidationPacket q vm) with
          | error e2 =>
            simp only [runLoop, h1, h2, h3, List.cons_append, List.nil_append,
              List.mem_cons, List.not_mem_nil, or_false, Event.writePacket.injEq,
              reduceCtorEq, false_and, false_or] at hmem
            obtain ⟨hji, hvp⟩ := hmem
            subst hji; subst hvp
            exact ⟨q, rp, vm, by simp [runLoop, h1, h2, h3], h1,
              by simp [runLoop, h1, h2, h3], rfl⟩
          | ok u =>
            simp only [runLoop, h1, h2, h3, List.cons_append, List.nil_append,
              List.mem_cons, List.mem_append, Event.writePacket.injEq,
              reduceCtorEq, false_and, false_or] at hmem
            rcases hmem with ⟨hji, hvp⟩ | hmem
            · subst hji; subst hvp
              exact ⟨q, rp, vm, by simp [runLoop, h1, h2, h3], h1,
                by simp [runLoop, h1, h2, h3], rfl⟩
            · obtain ⟨p, rp2, m, hd, hu, he, hv⟩ :=
                ih (i + 1) (acc ++ [mkValidationPacket q vm]) j vp hmem
              refine ⟨p, rp2, m, ?_, hu, ?_, hv⟩
              · simp only [runLoop, h1, h2, h3, List.cons_append, List.nil_append,
                  List.mem_cons, List.mem_append]
                exact Or.inr (Or.inr (Or.inr hd))
              · simp only [runLoop, h1, h2, h3, List.cons_append, List.nil_append,
                  List.mem_cons, List.mem_append]
                exact Or.inr (Or.inr (Or.inr he))

/-- When the loop completes normally every decoded packet was in
range, every non-EOF decode outcome was a packet, and the engine never
refused a packet. -/
theorem runLoop_ok (env : Env) (bins : Nat) (fi : Bool) :
    ∀ (s : List (Except Error IngestionDataSharePacket)) (i : Nat)
      (acc pkts : List ValidationPacket),
      (runLoop env bins fi i acc s).2 = .ok pkts →
      (∀ j e2, Event.decodeAttempt j (.error e2) ∈ (runLoop env bins fi i acc s).1 →
        e2 = Error.EofError) ∧
      (∀ j p, Event.decodeAttempt j (.ok p) ∈ (runLoop env bins fi i acc s).1 →
        ∃ rp, u32_try_from p.r_pit = some rp) ∧
      (∀ j rp, Event.engineResult j rp none ∉ (runLoop env bins fi i acc s).1) := by
  intro s
  induction s with
  | nil =>
    intro i acc pkts hres
    refine ⟨?_, ?_, ?_⟩ <;> (intros; simp_all [runLoop])
  | cons r rest ih =>
    intro i acc pkts hres
    cases r with
    | error er =>
      cases er with
      | EofError =>
        refine ⟨?_, ?_, ?_⟩
        · intro j e2 hk
          simp only [runLoop, List.mem_singleton, Event.decodeAttempt.injEq,
            Except.error.injEq] at hk
          exact hk.2
        · intro j p hk; simp [runLoop] at hk
        · intro j rp hk; simp [runLoop] at hk
      | IoError msg => simp [runLoop] at hres
      | AvroError msg => simp [runLoop] at hres
      | CryptographyError msg => simp [runLoop] at hres
      | MalformedHeaderError msg => simp [runLoop] at hres
      | MalformedDataPacketError msg => simp [runLoop] at hres
      | LibPrioError msg => simp [runLoop] at hres
    | ok q =>
      cases h1 : u32_try_from q.r_pit with
      | none => simp [runLoop, h1] at hres
      | some rp =>
        cases h2 : env.genVerification bins fi rp q.encrypted_payload with
        | none => simp [runLoop, h1, h2] at hres
        | some vm =>
          cases h3 : env.writeValidationPacket (mkValidationPacket q vm) with
          | error e2 => simp [runLoop, h1, h2, h3] at hres
          | ok u =>
            have hres' : (runLoop env bins fi (i + 1)
                (acc ++ [mkValidationPacket q vm]) rest).2 = .ok pkts := by
              simpa [runLoop, h1, h2, h3] using hres
            obtain ⟨ha, hb, hc⟩ :=
              ih (i + 1) (acc ++ [mkValidationPacket q vm]) pkts hres'
            refine ⟨?_, ?_, ?_⟩
            · intro j e2 hk
              simp only [runLoop, h1, h2, h3, List.cons_append, List.nil_append,
                List.mem_cons, List.mem_append, Event.decodeAttempt.injEq,
                reduceCtorEq, false_and, and_false, false_or, or_false] at hk
              exact ha j e2 hk
            · intro j p hk
              simp only [runLoop, h1, h2, h3, List.cons_append, List.nil_append,
                List.mem_cons, List.mem_append, Event.decodeAttempt.injEq,
                Except.ok.injEq, reduceCtorEq, false_and, and_false, false_or,
                or_false] at hk
              rcases hk with ⟨hji, hpq⟩ | hk
              · subst hpq; exact ⟨rp, h1⟩
              · exact hb j p hk
            · intro j rp2 hk
              simp only [runLoop, h1, h2, h3, List.cons_append, List.nil_append,
                List.mem_cons, List.mem_append, Event.engineResult.injEq,
                reduceCtorEq, false_and, and_false, false_or, or_false] at hk
              exact hc j rp2 hk

/-- Every run of `generate_validation_share` has one of the shapes. -/
theorem run_shape (a u d : String) (fi : Bool) (env : Env) :
    RunShape a u d fi env (generate_validation_share a u d fi env) := by
  simp only [generate_validation_share]
  split
  · exact RunShape.sigFail _
  split
  · exact RunShape.sigFail _
  split
  · exact RunShape.headerFetchFail _
  split
  · rename_i heqv
    rw [heqv]
    exact RunShape.headerSigFail
  rename_i heqv
  rw [heqv]
  split
  · rename_i e heqp
    rw [heqp]
    exact RunShape.parseFail _
  rename_i hdr heqp
  rw [heqp]
  split
  · rename_i hble
    exact RunShape.badBins hdr hble
  rename_i hble
  split
  · exact RunShape.packetFetchFail hdr (not_le.mp hble) _
  split
  · rename_i heqv2
    rw [heqv2]
    exact RunShape.packetSigFail hdr (not_le.mp hble)
  rename_i heqv2
  rw [heqv2]
  split
  · exact RunShape.readerFail hdr (not_le.mp hble)
  rename_i stream hrdr
  split
  · exact RunShape.putPacketFileFail hdr (not_le.mp hble) _
  split
  · rename_i e hl
    exact RunShape.loopFail hdr (not_le.mp hble) stream e hl
  rename_i written hl
  split
  · exact RunShape.flushFail hdr (not_le.mp hble) stream written hl
  split
  · exact RunShape.signPacketsFail hdr (not_le.mp hble) stream written hl
  rename_i ps hsignp
  split
  · exact RunShape.putHeaderFail hdr (not_le.mp hble) stream written hl _
  split
  · exact RunShape.writeHeaderFail hdr (not_le.mp hble) stream written hl _
  split
  · exact RunShape.signHeaderFail hdr (not_le.mp hble) stream written hl
  rename_i hs hsignh
  split
  · exact RunShape.putSignatureFail hdr (not_le.mp hble) stream written hl _
  split
  · rename_i e hw
    exact RunShape.writeSigRecordFail hdr (not_le.mp hble) stream written hl hs ps e hw
  rename_i u2 hw
  exact RunShape.done hdr (not_le.mp hble) stream written hl hs ps hw



/-- Decomposition of a trace that went past packet-file verification:
everything before the successful verification event is loop-free and
contains the whole-file fetch. -/
theorem trVerP_split (hdr : IngestionHeader) (fi : Bool) {t : List Event}
    (rest : List Event) (h : t = trVerP hdr fi true ++ rest) :
    ∃ t1 t2, t = t1 ++ Event.verifyPacketFileSignature true :: t2 ∧
      Event.fetchPacketFile ∈ t1 ∧ ∀ e ∈ t1, e.loopIdx = none := by
  subst h
  refine ⟨trFetchP hdr fi, rest, by simp, by simp, by simp⟩

/-- Decomposition of a trace that went past header verification:
everything before the successful verification event is free of
header-parse events. -/
theorem trVerH_split {t : List Event} (rest : List Event)
    (h : t = trVerH true ++ rest) :
    ∃ t1 t2, t = t1 ++ Event.verifyHeaderSignature true :: t2 ∧
      ∀ rh2, Event.parseHeaderAttempt rh2 ∉ t1 := by
  subst h
  refine ⟨trHdr, rest, by simp, by simp⟩

set_option maxHeartbeats 1000000 in
/-- C1: the whole packet file is fetched into an in-memory buffer and
the ingestor key verifies the signature over that complete buffer
before any packet is decoded or handed to the secret-share engine; a
failed verification returns the cryptography error and no packet is
ever processed. -/
theorem claim1_packet_file_verified_before_decode (a u d : String) (fi : Bool)
    (env : Env) :
    ((∃ i r2, Event.decodeAttempt i r2 ∈ (generate_validation_share a u d fi env).1) →
      ∃ t1 t2, (generate_validation_share a u d fi env).1 =
          t1 ++ Event.verifyPacketFileSignature true :: t2 ∧
        Event.fetchPacketFile ∈ t1 ∧ ∀ e ∈ t1, e.loopIdx = none) ∧
    (Event.verifyPacketFileSignature false ∈ (generate_validation_share a u d fi env).1 →
      (generate_validation_share a u d fi env).2 =
        .error (.CryptographyError "invalid signature on packet file") ∧
      ∀ e ∈ (generate_validation_share a u d fi env).1, e.loopIdx = none) := by
  have h := run_shape a u d fi env
  revert h
  generalize generate_validation_share a u d fi env = out
  intro h
  cases h with
  | sigFail e =>
    exact ⟨fun hc => by obtain ⟨i, r2, hm⟩ := hc; simp at hm, fun hc => by simp at hc⟩
  | headerFetchFail e =>
    exact ⟨fun hc => by obtain ⟨i, r2, hm⟩ := hc; simp at hm, fun hc => by simp at hc⟩
  | headerSigFail =>
    exact ⟨fun hc => by obtain ⟨i, r2, hm⟩ := hc; simp at hm, fun hc => by simp at hc⟩
  | parseFail e =>
    exact ⟨fun hc => by obtain ⟨i, r2, hm⟩ := hc; simp at hm, fun hc => by simp at hc⟩
  | badBins hdr hb =>
    exact ⟨fun hc => by obtain ⟨i, r2, hm⟩ := hc; simp at hm, fun hc => by simp at hc⟩
  | packetFetchFail hdr hb e =>
    exact ⟨fun hc => by obtain ⟨i, r2, hm⟩ := hc; simp at hm, fun hc => by simp at hc⟩
  | packetSigFail hdr hb =>
    refine ⟨fun hc => by obtain ⟨i, r2, hm⟩ := hc; simp at hm, fun hc => ⟨rfl, by simp⟩⟩
  | readerFail hdr hb =>
    exact ⟨fun hc => by obtain ⟨i, r2, hm⟩ := hc; simp at hm, fun hc => by simp at hc⟩
  | putPacketFileFail hdr hb e =>
    exact ⟨fun hc => by obtain ⟨i, r2, hm⟩ := hc; simp at hm, fun hc => by simp at hc⟩
  | loopFail hdr hb stream e hl =>
    constructor
    · intro hc
      exact trVerP_split hdr fi _ rfl
    · intro hc
      exfalso
      simp [runLoop_not_mem] at hc
  | flushFail hdr hb stream written hl =>
    constructor
    · intro hc
      exact trVerP_split hdr fi _ rfl
    · intro hc
      exfalso
      simp [runLoop_not_mem] at hc
  | signPacketsFail hdr hb stream written hl =>
    constructor
    · intro hc
      exact trVerP_split hdr fi _ rfl
    · intro hc
      exfalso
      simp [runLoop_not_mem] at hc
  | putHeaderFail hdr hb stream written hl e =>
    constructor
    · intro hc
      exact trVerP_split hdr fi _ rfl
    · intro hc
      exfalso
      simp [runLoop_not_mem] at hc
  | writeHeaderFail hdr hb stream written hl e =>
    constructor
    · intro hc
      exact trVerP_split hdr fi _ rfl
    · intro hc
      exfalso
      simp [runLoop_not_mem] at hc
  | signHeaderFail hdr hb stream written hl =>
    constructor
    · intro hc
      exact trVerP_split hdr fi _ rfl
    · intro hc
      exfalso
      simp [runLoop_not_mem] at hc
  | putSignatureFail hdr hb stream written hl e =>
    constructor
    · intro hc
      exact trVerP_split hdr fi _ rfl
    · intro hc
      exfalso
      simp [runLoop_not_mem] at hc
  | writeSigRecordFail hdr hb stream written hl hs ps e hw =>
    constructor
    · intro hc
      exact trVerP_split hdr fi _ rfl
    · intro hc
      exfalso
      simp [runLoop_not_mem] at hc
  | done hdr hb stream written hl hs ps hw =>
    constructor
    · intro hc
      exact trVerP_split hdr fi _ rfl
    · intro hc
      exfalso
      simp [runLoop_not_mem] at hc

set_option maxHeartbeats 1000000 in
/-- C2: a run returns no partial-success state — on Ok every one of the
thirteen steps happened, including the write of the output signature
record, and completing the final write means the whole call returned
Ok; otherwise the call returns the error of the step that failed, and
output already sent to the destination is never rolled back (the trace
only ever grows). -/
theorem claim2_all_steps_or_first_error (a u d : String) (fi : Bool) (env : Env) :
    ((generate_validation_share a u d fi env).2 = .ok () →
      Event.fetchSignature ∈ (generate_validation_share a u d fi env).1 ∧
      Event.fetchHeader ∈ (generate_validation_share a u d fi env).1 ∧
      Event.verifyHeaderSignature true ∈ (generate_validation_share a u d fi env).1 ∧
      (∃ hdr, Event.parseHeaderAttempt (.ok hdr) ∈ (generate_validation_share a u d fi env).1) ∧
      (∃ b f2, Event.constructServer b f2 ∈ (generate_validation_share a u d fi env).1) ∧
      Event.fetchPacketFile ∈ (generate_validation_share a u d fi env).1 ∧
      Event.verifyPacketFileSignature true ∈ (generate_validation_share a u d fi env).1 ∧
      Event.createPacketReader ∈ (generate_validation_share a u d fi env).1 ∧
      (∃ k, Event.openPacketFileSink k ∈ (generate_validation_share a u d fi env).1) ∧
      Event.flushPackets ∈ (generate_validation_share a u d fi env).1 ∧
      Event.signPacketFile ∈ (generate_validation_share a u d fi env).1 ∧
      (∃ k, Event.openHeaderSink k ∈ (generate_validation_share a u d fi env).1) ∧
      (∃ vh, Event.writeHeader vh ∈ (generate_validation_share a u d fi env).1) ∧
      Event.signHeader ∈ (generate_validation_share a u d fi env).1 ∧
      (∃ k, Event.openSignatureSink k ∈ (generate_validation_share a u d fi env).1) ∧
      (∃ s, Event.writeSignatureRecord s ∈ (generate_validation_share a u d fi env).1 ∧
        env.writeSignatureRecord s = .ok ())) ∧
    ((∃ s, Event.writeSignatureRecord s ∈ (generate_validation_share a u d fi env).1 ∧
        env.writeSignatureRecord s = .ok ()) →
      (generate_validation_share a u d fi env).2 = .ok ()) ∧
    ((generate_validation_share a u d fi env).2 = .ok () ∨
      ∃ e, (generate_validation_share a u d fi env).2 = .error e) := by
  have h := run_shape a u d fi env
  revert h
  generalize generate_validation_share a u d fi env = out
  intro h
  cases h
  case done hdr hb stream written hl hs ps hw =>
    refine ⟨fun _ => ?_, fun _ => rfl, Or.inl rfl⟩
    refine ⟨by simp, by simp, by simp, ⟨hdr, by simp⟩, ⟨hdr.bins.toNat, fi, by simp⟩,
      by simp, by simp, by simp,
      ⟨(Batch.new_validation a u d fi).packet_file_path, by simp⟩, by simp, by simp,
      ⟨(Batch.new_validation a u d fi).header_path, by simp⟩,
      ⟨copyHeader hdr, by simp⟩, by simp,
      ⟨(Batch.new_validation a u d fi).signature_path, by simp⟩,
      ⟨⟨hs, ps⟩, by simp, hw⟩⟩
  all_goals refine ⟨fun hok => absurd hok (by simp), ?_, Or.inr ⟨_, rfl⟩⟩
  case writeSigRecordFail hdr hb stream written hl hs ps e hw =>
    rintro ⟨s, hm, hsok⟩
    simp [runLoop_not_mem] at hm
    subst hm
    rw [hw] at hsok
    exact Except.noConfusion hsok
  all_goals
    (rintro ⟨s, hm, hsok⟩; simp [runLoop_not_mem] at hm)

set_option maxHeartbeats 1000000 in
/-- C3: the header signature is verified before the header bytes are
parsed; a failed verification returns the cryptography error with no
header parse, no engine construction and no packet-file fetch. -/
theorem claim3_header_signature_gates_processing (a u d : String) (fi : Bool)
    (env : Env) :
    (Event.verifyHeaderSignature false ∈ (generate_validation_share a u d fi env).1 →
      (generate_validation_share a u d fi env).2 =
        .error (.CryptographyError "invalid signature on ingestion header") ∧
      (∀ rh, Event.parseHeaderAttempt rh ∉ (generate_validation_share a u d fi env).1) ∧
      (∀ b f2, Event.constructServer b f2 ∉ (generate_validation_share a u d fi env).1) ∧
      Event.fetchPacketFile ∉ (generate_validation_share a u d fi env).1) ∧
    (∀ rh, Event.parseHeaderAttempt rh ∈ (generate_validation_share a u d fi env).1 →
      ∃ t1 t2, (generate_validation_share a u d fi env).1 =
          t1 ++ Event.verifyHeaderSignature true :: t2 ∧
        ∀ rh2, Event.parseHeaderAttempt rh2 ∉ t1) := by
  have h := run_shape a u d fi env
  revert h
  generalize generate_validation_share a u d fi env = out
  intro h
  cases h
  case headerSigFail =>
    exact ⟨fun hc => ⟨rfl, by simp, by simp, by simp⟩, fun rh hc => by simp at hc⟩
  all_goals first
    | exact ⟨fun hc => by simp [runLoop_not_mem] at hc, fun rh hc => trVerH_split _ rfl⟩
    | exact ⟨fun hc => by simp [runLoop_not_mem] at hc, fun rh hc => by simp at hc⟩

set_option maxHeartbeats 1000000 in
/-- C4: a parsed header with a non-positive bin count makes the call
return the malformed-header error naming the value, and the
secret-share engine is never constructed for the batch. -/
theorem claim4_nonpositive_bins_rejected (a u d : String) (fi : Bool) (env : Env)
    (hdr0 : IngestionHeader) :
    Event.parseHeaderAttempt (.ok hdr0) ∈ (generate_validation_share a u d fi env).1 →
    hdr0.bins ≤ 0 →
    (generate_validation_share a u d fi env).2 = .error (.MalformedHeaderError
      ("invalid bins/dimension value " ++ toString hdr0.bins)) ∧
    ∀ b f2, Event.constructServer b f2 ∉ (generate_validation_share a u d fi env).1 := by
  have h := run_shape a u d fi env
  revert h
  generalize generate_validation_share a u d fi env = out
  intro h
  cases h
  all_goals intro hmem hble
  all_goals simp [runLoop_not_mem] at hmem
  all_goals subst hmem
  case badBins => exact ⟨rfl, by simp⟩
  all_goals exact absurd hble (by omega)

set_option maxHeartbeats 1000000 in
/-- C5: decoding a packet whose r_pit is outside the unsigned 32-bit
range makes the call return the malformed-data-packet error naming the
value, and processing stops at that packet: no later packet is
decoded, none reaches the engine and none is written — the value is
never truncated or wrapped. -/
theorem claim5_out_of_range_rpit_stops_processing (a u d : String) (fi : Bool)
    (env : Env) (j : Nat) (p : IngestionDataSharePacket) :
    Event.decodeAttempt j (.ok p) ∈ (generate_validation_share a u d fi env).1 →
    u32_try_from p.r_pit = none →
    (generate_validation_share a u d fi env).2 = .error (.MalformedDataPacketError
      ("illegal r_pit value " ++ toString p.r_pit ++
        " (out of range integral type conversion attempted)")) ∧
    (∀ k r2, Event.decodeAttempt k r2 ∈ (generate_validation_share a u d fi env).1 →
      k ≤ j) ∧
    (∀ k rp m, Event.engineResult k rp m ∈ (generate_validation_share a u d fi env).1 →
      k < j) ∧
    (∀ k vp, Event.writePacket k vp ∈ (generate_validation_share a u d fi env).1 →
      k < j) := by
  have h := run_shape a u d fi env
  revert h
  generalize generate_validation_share a u d fi env = out
  intro h
  cases h
  all_goals intro hmem hrange
  all_goals simp [runLoop_not_mem] at hmem
  case loopFail hdr hb stream e hl =>
    obtain ⟨hres, hd, he, hw⟩ :=
      runLoop_bad_rpit env hdr.bins.toNat fi stream 0 [] j p hmem hrange
    rw [hl] at hres
    injection hres with hres
    subst hres
    refine ⟨rfl, ?_, ?_, ?_⟩
    · intro k r2 hk
      simp [runLoop_not_mem] at hk
      exact hd k r2 hk
    · intro k rp m hk
      simp [runLoop_not_mem] at hk
      exact he k rp m hk
    · intro k vp hk
      simp [runLoop_not_mem] at hk
      exact hw k vp hk
  all_goals
    (obtain ⟨-, hok, -⟩ := runLoop_ok env _ fi _ 0 [] _ (by assumption)
     obtain ⟨rp2, hrp⟩ := hok j p hmem
     rw [hrp] at hrange
     exact Option.noConfusion hrange)

set_option maxHeartbeats 1000000 in
/-- C6: on success the output validation header's protocol parameters
equal, field for field, the parsed input ingestion header's values. -/
theorem claim6_header_fields_copied (a u d : String) (fi : Bool) (env : Env) :
    (generate_validation_share a u d fi env).2 = .ok () →
    ∀ hdr vh, Event.parseHeaderAttempt (.ok hdr) ∈ (generate_validation_share a u d fi env).1 →
      Event.writeHeader vh ∈ (generate_validation_share a u d fi env).1 →
      vh.batch_uuid = hdr.batch_uuid ∧ vh.name = hdr.name ∧ vh.bins = hdr.bins ∧
      vh.epsilon = hdr.epsilon ∧ vh.prime = hdr.prime ∧
      vh.number_of_servers = hdr.number_of_servers ∧
      vh.hamming_weight = hdr.hamming_weight := by
  have h := run_shape a u d fi env
  revert h
  generalize generate_validation_share a u d fi env = out
  intro h
  cases h
  case done hdr hb stream written hl hs ps hw =>
    intro _ hdr0 vh hparse hwrite
    simp [runLoop_not_mem] at hparse hwrite
    subst hparse
    subst hwrite
    exact ⟨rfl, rfl, rfl, rfl, rfl, rfl, rfl⟩
  all_goals (intro hok; simp at hok)

set_option maxHeartbeats 1000000 in
/-- C8: every emitted validation packet carries the UUID of the packet
it was computed from and the engine's three unsigned 32-bit outputs
widened to signed integers, each nonnegative and below 2 to the 32. -/
theorem claim8_widened_engine_outputs (a u d : String) (fi : Bool) (env : Env)
    (j : Nat) (vp : ValidationPacket) :
    Event.writePacket j vp ∈ (generate_validation_share a u d fi env).1 →
    (0 ≤ vp.f_r ∧ vp.f_r < 4294967296) ∧
    (0 ≤ vp.g_r ∧ vp.g_r < 4294967296) ∧
    (0 ≤ vp.h_r ∧ vp.h_r < 4294967296) ∧
    ∃ p m, Event.decodeAttempt j (.ok p) ∈ (generate_validation_share a u d fi env).1 ∧
      vp.uuid = p.uuid ∧
      ∃ rp, u32_try_from p.r_pit = some rp ∧
        Event.engineResult j rp (some m) ∈ (generate_validation_share a u d fi env).1 ∧
        vp = mkValidationPacket p m := by
  have h := run_shape a u d fi env
  revert h
  generalize generate_validation_share a u d fi env = out
  intro h
  cases h
  all_goals intro hmem
  all_goals simp [runLoop_not_mem] at hmem
  all_goals
    obtain ⟨p, rp, m, hd, hu, he, hv⟩ := runLoop_writePacket env _ fi _ 0 [] j vp hmem
  all_goals subst hv
  all_goals
    exact ⟨⟨Int.ofNat_nonneg _, by simp only [mkValidationPacket]; exact_mod_cast m.f_r.isLt⟩,
      ⟨Int.ofNat_nonneg _, by simp only [mkValidationPacket]; exact_mod_cast m.g_r.isLt⟩,
      ⟨Int.ofNat_nonneg _, by simp only [mkValidationPacket]; exact_mod_cast m.h_r.isLt⟩,
      p, m, by simp [hd], rfl, rp, hu, by simp [he], rfl⟩

set_option maxHeartbeats 1000000 in
/-- C9: when any per-packet step fails the call returns an error
before the validation header or the validation signature record is
written — the flush, signing and header steps never happen either, so
the destination never holds a signature record unless every packet of
the batch was processed successfully. -/
theorem claim9_no_outputs_after_packet_failure (a u d : String) (fi : Bool)
    (env : Env) :
    loopFailure (generate_validation_share a u d fi env).1 →
    (∃ e, (generate_validation_share a u d fi env).2 = .error e) ∧
    (∀ vh, Event.writeHeader vh ∉ (generate_validation_share a u d fi env).1) ∧
    (∀ s, Event.writeSignatureRecord s ∉ (generate_validation_share a u d fi env).1) ∧
    Event.flushPackets ∉ (generate_validation_share a u d fi env).1 ∧
    Event.signPacketFile ∉ (generate_validation_share a u d fi env).1 ∧
    Event.signHeader ∉ (generate_validation_share a u d fi env).1 := by
  have h := run_shape a u d fi env
  revert h
  generalize generate_validation_share a u d fi env = out
  intro h
  cases h
  case loopFail hdr hb stream e hl =>
    exact fun _ => ⟨⟨e, rfl⟩, fun vh => by simp [runLoop_not_mem],
      fun s => by simp [runLoop_not_mem], by simp [runLoop_not_mem],
      by simp [runLoop_not_mem], by simp [runLoop_not_mem]⟩
  all_goals
    rintro (⟨i, e2, hne, hmem⟩ | ⟨i, p, hmem, hnone⟩ | ⟨i, rp, hmem⟩)
  all_goals simp [runLoop_not_mem] at hmem
  all_goals first
    | exact absurd ((runLoop_ok env _ fi _ 0 [] _ (by assumption)).1 _ _ hmem) hne
    | (obtain ⟨rp2, hrp⟩ := (runLoop_ok env _ fi _ 0 [] _ (by assumption)).2.1 _ _ hmem
       rw [hrp] at hnone
       exact Option.noConfusion hnone)
    | exact absurd hmem ((runLoop_ok env _ fi _ 0 [] _ (by assumption)).2.2 _ _)

/-- Scanning a dot-free component finds no dot. -/
theorem lastDotIdxAux_no_dot : ∀ (s : List Char), '.' ∉ s →
    ∀ (i : Nat) (acc : Option Nat), lastDotIdxAux s i acc = acc
  | [], _, _, _ => rfl
  | c :: rest, hs, i, acc => by
    have hc : ¬(c = '.') := fun h => hs (by simp [h])
    have hr : '.' ∉ rest := fun h => hs (List.mem_cons_of_mem c h)
    simp only [lastDotIdxAux, if_neg hc]
    exact lastDotIdxAux_no_dot rest hr (i + 1) acc

/-- The file stem of a dot-free component is the whole component. -/
theorem rust_file_stem_no_dot (s : List Char) (hs : '.' ∉ s) :
    rust_file_stem s = s := by
  simp [rust_file_stem, lastDotIdx, lastDotIdxAux_no_dot s hs 0 none]

/-- Setting the extension of a dot-free component appends a dot and
the extension. -/
theorem set_ext_component_no_dot (u ext : String) (hu : '.' ∉ u.data)
    (hext : ext.data ≠ []) :
    set_ext_component u ext = String.mk (u.data ++ '.' :: ext.data) := by
  simp [set_ext_component, hext, rust_file_stem_no_dot u.data hu]

set_option maxHeartbeats 1000000 in
/-- C7: the batch locator is a pure function of (collection name,
UUID, date, role) producing the three storage keys from the common
stem collection/date/uuid, suffixed `batch` for the ingestion role and
`validity_0` or `validity_1` for the first- or second-processor
validation role.  The hypotheses record that the uuid component is a
nonempty dot-free string, which `Uuid::to_hyphenated` always yields
(on other component values the component-list path model would not
match Rust's `Path::with_extension` file-name handling). -/
theorem claim7_batch_locator_keys (n u d : String) (hne : u.data ≠ [])
    (hdot : '.' ∉ u.data) :
    (Batch.new_ingestion n u d).header_path = [n, d, u ++ ".batch"] ∧
    (Batch.new_ingestion n u d).packet_file_path = [n, d, u ++ ".batch.avro"] ∧
    (Batch.new_ingestion n u d).signature_path = [n, d, u ++ ".batch.sig"] ∧
    (Batch.new_validation n u d true).header_path = [n, d, u ++ ".validity_0"] ∧
    (Batch.new_validation n u d true).packet_file_path = [n, d, u ++ ".validity_0.avro"] ∧
    (Batch.new_validation n u d true).signature_path = [n, d, u ++ ".validity_0.sig"] ∧
    (Batch.new_validation n u d false).header_path = [n, d, u ++ ".validity_1"] ∧
    (Batch.new_validation n u d false).packet_file_path = [n, d, u ++ ".validity_1.avro"] ∧
    (Batch.new_validation n u d false).signature_path = [n, d, u ++ ".validity_1.sig"] := by
  have key : ∀ ext suffix : String, ext.data ≠ [] →
      suffix.data = '.' :: ext.data → set_ext_component u ext = u ++ suffix := by
    intro ext suffix hext hsuf
    rw [set_ext_component_no_dot u ext hdot hext]
    apply String.ext
    rw [String.data_append, hsuf]
  refine ⟨?_, ?_, ?_, ?_, ?_, ?_, ?_, ?_, ?_⟩
  · simpa [Batch.new_ingestion, Batch.new, with_extension]
      using key "batch" ".batch" (by decide) rfl
  · simpa [Batch.new_ingestion, Batch.new, with_extension]
      using key ("batch" ++ ".avro") ".batch.avro" (by decide) rfl
  · simpa [Batch.new_ingestion, Batch.new, with_extension]
      using key ("batch" ++ ".sig") ".batch.sig" (by decide) rfl
  · simpa [Batch.new_validation, Batch.new, with_extension]
      using key ("validity_" ++ "0") ".validity_0" (by decide) rfl
  · simpa [Batch.new_validation, Batch.new, with_extension]
      using key ("validity_" ++ "0" ++ ".avro") ".validity_0.avro" (by decide) rfl
  · simpa [Batch.new_validation, Batch.new, with_extension]
      using key ("validity_" ++ "0" ++ ".sig") ".validity_0.sig" (by decide) rfl
  · simpa [Batch.new_validation, Batch.new, with_extension]
      using key ("validity_" ++ "1") ".validity_1" (by decide) rfl
  · simpa [Batch.new_validation, Batch.new, with_extension]
      using key ("validity_" ++ "1" ++ ".avro") ".validity_1.avro" (by decide) rfl
  · simpa [Batch.new_validation, Batch.new, with_extension]
      using key ("validity_" ++ "1" ++ ".sig") ".validity_1.sig" (by decide) rfl

set_option maxHeartbeats 1000000 in
/-- C10: the call never compares the parsed header's batch UUID or
collection name with the batch identity given at construction: for
every header whose batch UUID and collection name differ from the
constructor arguments, a correctly signed batch is still accepted and
the header's own values are copied verbatim into the output validation
header. -/
theorem claim10_header_identity_unchecked (hu hn cu cn : String)
    (h1 : hu ≠ cu) (h2 : hn ≠ cn) :
    (generate_validation_share cn cu "2020-10-31" true
        (mkEnv { goodHeader with batch_uuid := hu, name := hn } [.ok goodPacket])).2 =
      .ok () ∧
    Event.writeHeader (copyHeader { goodHeader with batch_uuid := hu, name := hn }) ∈
      (generate_validation_share cn cu "2020-10-31" true
        (mkEnv { goodHeader with batch_uuid := hu, name := hn } [.ok goodPacket])).1 := by
  constructor
  · rfl
  · exact List.get?_mem (rfl :
      ((generate_validation_share cn cu "2020-10-31" true
        (mkEnv { goodHeader with batch_uuid := hu, name := hn } [.ok goodPacket])).1).get? 15 =
      some (Event.writeHeader (copyHeader { goodHeader with batch_uuid := hu, name := hn })))

/-! ### Witnesses: the theorems above applied on concrete runs -/

/-- Witness for C1: on the bad-packet-signature run the call fails
with the cryptography error and processes no packet; on the all-good
run the decode events sit strictly after the verification event. -/
theorem claim1_witness :
    (badSigRun.2 = .error (.CryptographyError "invalid signature on packet file") ∧
      ∀ e ∈ badSigRun.1, e.loopIdx = none) ∧
    (∃ t1 t2, okRun.1 = t1 ++ Event.verifyPacketFileSignature true :: t2 ∧
      Event.fetchPacketFile ∈ t1 ∧ ∀ e ∈ t1, e.loopIdx = none) :=
  ⟨(claim1_packet_file_verified_before_decode "fake-aggregation-1" "uuid-0"
      "2020-10-31" true envBadPacketSig).2 (by decide),
   (claim1_packet_file_verified_before_decode "fake-aggregation-1" "uuid-0"
      "2020-10-31" true okEnv).1 ⟨0, .ok goodPacket, by decide⟩⟩

/-- Witness for C2: the all-good run returns Ok having performed every
step, and conversely the completed final write certifies the Ok. -/
theorem claim2_witness :
    (Event.fetchSignature ∈ okRun.1 ∧ Event.fetchHeader ∈ okRun.1 ∧
      Event.verifyHeaderSignature true ∈ okRun.1 ∧
      (∃ hdr, Event.parseHeaderAttempt (.ok hdr) ∈ okRun.1) ∧
      (∃ b f2, Event.constructServer b f2 ∈ okRun.1) ∧
      Event.fetchPacketFile ∈ okRun.1 ∧
      Event.verifyPacketFileSignature true ∈ okRun.1 ∧
      Event.createPacketReader ∈ okRun.1 ∧
      (∃ k, Event.openPacketFileSink k ∈ okRun.1) ∧
      Event.flushPackets ∈ okRun.1 ∧ Event.signPacketFile ∈ okRun.1 ∧
      (∃ k, Event.openHeaderSink k ∈ okRun.1) ∧
      (∃ vh, Event.writeHeader vh ∈ okRun.1) ∧
      Event.signHeader ∈ okRun.1 ∧ (∃ k, Event.openSignatureSink k ∈ okRun.1) ∧
      (∃ s, Event.writeSignatureRecord s ∈ okRun.1 ∧
        okEnv.writeSignatureRecord s = .ok ())) ∧
    okRun.2 = .ok () :=
  ⟨(claim2_all_steps_or_first_error "fake-aggregation-1" "uuid-0" "2020-10-31"
      true okEnv).1 (by decide),
   (claim2_all_steps_or_first_error "fake-aggregation-1" "uuid-0" "2020-10-31"
      true okEnv).2.1 ⟨⟨[4], [4]⟩, by decide, by decide⟩⟩

/-- Witness for C3: on the unverifiable batch nothing past the header
check happens; on the all-good run the parse sits strictly after the
successful header verification. -/
theorem claim3_witness :
    (noVerifyRun.2 = .error (.CryptographyError "invalid signature on ingestion header") ∧
      (∀ rh, Event.parseHeaderAttempt rh ∉ noVerifyRun.1) ∧
      (∀ b f2, Event.constructServer b f2 ∉ noVerifyRun.1) ∧
      Event.fetchPacketFile ∉ noVerifyRun.1) ∧
    (∃ t1 t2, okRun.1 = t1 ++ Event.verifyHeaderSignature true :: t2 ∧
      ∀ rh2, Event.parseHeaderAttempt rh2 ∉ t1) :=
  ⟨(claim3_header_signature_gates_processing "fake-aggregation-1" "uuid-0"
      "2020-10-31" true envNoVerify).1 (by decide),
   (claim3_header_signature_gates_processing "fake-aggregation-1" "uuid-0"
      "2020-10-31" true okEnv).2 (.ok goodHeader) (by decide)⟩

/-- Witness for C4: the header with zero bins is rejected with the
malformed-header error and the engine is never constructed. -/
theorem claim4_witness :
    badBinsRun.2 = .error (.MalformedHeaderError
      ("invalid bins/dimension value " ++ toString badBinsHeader.bins)) ∧
    ∀ b f2, Event.constructServer b f2 ∉ badBinsRun.1 :=
  claim4_nonpositive_bins_rejected "fake-aggregation-1" "uuid-0" "2020-10-31"
    true envBadBins badBinsHeader (by decide) (by decide)

/-- Witness for C5: the run whose first packet carries r_pit -1 stops
at that packet with the malformed-data-packet error naming the value. -/
theorem claim5_witness :
    badRpitRun.2 = .error (.MalformedDataPacketError
      ("illegal r_pit value " ++ toString badPacket.r_pit ++
        " (out of range integral type conversion attempted)")) ∧
    (∀ k r2, Event.decodeAttempt k r2 ∈ badRpitRun.1 → k ≤ 0) ∧
    (∀ k rp m, Event.engineResult k rp m ∈ badRpitRun.1 → k < 0) ∧
    (∀ k vp, Event.writePacket k vp ∈ badRpitRun.1 → k < 0) :=
  claim5_out_of_range_rpit_stops_processing "fake-aggregation-1" "uuid-0"
    "2020-10-31" true envBadRpit 0 badPacket (by decide) (by decide)

/-- Witness for C6: on the all-good run the written validation header
equals the parsed header field for field. -/
theorem claim6_witness :
    (copyHeader goodHeader).batch_uuid = goodHeader.batch_uuid ∧
    (copyHeader goodHeader).name = goodHeader.name ∧
    (copyHeader goodHeader).bins = goodHeader.bins ∧
    (copyHeader goodHeader).epsilon = goodHeader.epsilon ∧
    (copyHeader goodHeader).prime = goodHeader.prime ∧
    (copyHeader goodHeader).number_of_servers = goodHeader.number_of_servers ∧
    (copyHeader goodHeader).hamming_weight = goodHeader.hamming_weight :=
  claim6_header_fields_copied "fake-aggregation-1" "uuid-0" "2020-10-31" true okEnv
    (by decide) goodHeader (copyHeader goodHeader) (by decide) (by decide)

/-- Witness for C7: the nine keys of a concrete batch identity. -/
theorem claim7_witness :
    (Batch.new_ingestion "fake-aggregation-1" "uuid-0" "2020-10-31").header_path =
      ["fake-aggregation-1", "2020-10-31", "uuid-0" ++ ".batch"] ∧
    (Batch.new_ingestion "fake-aggregation-1" "uuid-0" "2020-10-31").packet_file_path =
      ["fake-aggregation-1", "2020-10-31", "uuid-0" ++ ".batch.avro"] ∧
    (Batch.new_ingestion "fake-aggregation-1" "uuid-0" "2020-10-31").signature_path =
      ["fake-aggregation-1", "2020-10-31", "uuid-0" ++ ".batch.sig"] ∧
    (Batch.new_validation "fake-aggregation-1" "uuid-0" "2020-10-31" true).header_path =
      ["fake-aggregation-1", "2020-10-31", "uuid-0" ++ ".validity_0"] ∧
    (Batch.new_validation "fake-aggregation-1" "uuid-0" "2020-10-31" true).packet_file_path =
      ["fake-aggregation-1", "2020-10-31", "uuid-0" ++ ".validity_0.avro"] ∧
    (Batch.new_validation "fake-aggregation-1" "uuid-0" "2020-10-31" true).signature_path =
      ["fake-aggregation-1", "2020-10-31", "uuid-0" ++ ".validity_0.sig"] ∧
    (Batch.new_validation "fake-aggregation-1" "uuid-0" "2020-10-31" false).header_path =
      ["fake-aggregation-1", "2020-10-31", "uuid-0" ++ ".validity_1"] ∧
    (Batch.new_validation "fake-aggregation-1" "uuid-0" "2020-10-31" false).packet_file_path =
      ["fake-aggregation-1", "2020-10-31", "uuid-0" ++ ".validity_1.avro"] ∧
    (Batch.new_validation "fake-aggregation-1" "uuid-0" "2020-10-31" false).signature_path =
      ["fake-aggregation-1", "2020-10-31", "uuid-0" ++ ".validity_1.sig"] :=
  claim7_batch_locator_keys "fake-aggregation-1" "uuid-0" "2020-10-31"
    (by decide) (by decide)

/-- Witness for C8: the packet written on the all-good run is the
widening of the engine output for the decoded packet. -/
theorem claim8_witness :
    (0 ≤ (mkValidationPacket goodPacket goodMessage).f_r ∧
      (mkValidationPacket goodPacket goodMessage).f_r < 4294967296) ∧
    (0 ≤ (mkValidationPacket goodPacket goodMessage).g_r ∧
      (mkValidationPacket goodPacket goodMessage).g_r < 4294967296) ∧
    (0 ≤ (mkValidationPacket goodPacket goodMessage).h_r ∧
      (mkValidationPacket goodPacket goodMessage).h_r < 4294967296) ∧
    ∃ p m, Event.decodeAttempt 0 (.ok p) ∈ okRun.1 ∧
      (mkValidationPacket goodPacket goodMessage).uuid = p.uuid ∧
      ∃ rp, u32_try_from p.r_pit = some rp ∧
        Event.engineResult 0 rp (some m) ∈ okRun.1 ∧
        mkValidationPacket goodPacket goodMessage = mkValidationPacket p m :=
  claim8_widened_engine_outputs "fake-aggregation-1" "uuid-0" "2020-10-31" true
    okEnv 0 (mkValidationPacket goodPacket goodMessage) (by decide)

/-- Witness for C9: on the run whose first packet is malformed, the
call errors out and never writes the header, never signs and never
writes the signature record. -/
theorem claim9_witness :
    (∃ e, badRpitRun.2 = .error e) ∧
    (∀ vh, Event.writeHeader vh ∉ badRpitRun.1) ∧
    (∀ s, Event.writeSignatureRecord s ∉ badRpitRun.1) ∧
    Event.flushPackets ∉ badRpitRun.1 ∧ Event.signPacketFile ∉ badRpitRun.1 ∧
    Event.signHeader ∉ badRpitRun.1 :=
  claim9_no_outputs_after_packet_failure "fake-aggregation-1" "uuid-0" "2020-10-31"
    true envBadRpit (Or.inr (Or.inl ⟨0, badPacket, by decide, by decide⟩))

/-- Witness for C10: a batch whose signed header names a different
UUID and collection than the batch identity is accepted and its values
are copied into the output header. -/
theorem claim10_witness :
    (generate_validation_share "fake-aggregation-1" "uuid-0" "2020-10-31" true
        (mkEnv { goodHeader with batch_uuid := "mismatched-uuid", name := "mismatched-name" } [.ok goodPacket])).2 = .ok () ∧
    Event.writeHeader (copyHeader { goodHeader with batch_uuid := "mismatched-uuid", name := "mismatched-name" }) ∈
      (generate_validation_share "fake-aggregation-1" "uuid-0" "2020-10-31" true
        (mkEnv { goodHeader with batch_uuid := "mismatched-uuid", name := "mismatched-name" } [.ok goodPacket])).1 :=
  claim10_header_identity_unchecked "mismatched-uuid" "mismatched-name" "uuid-0"
    "fake-aggregation-1" (by decide) (by decide)

end Prio
